import Mathlib

/-!
Shallow embedding of the calculation layer of the finvision-ai-modeler
repository (TypeScript), together with theorems settling the frozen claims
about it.  JavaScript numbers are modelled as exact rationals (`ℚ`); the
arithmetic here is `+ - * /`, `Math.pow` with natural exponents, `min`/`max`
and `Math.round`, all of which are exact on the inputs of interest.
`Math.round x` is modelled as `⌊x + 1/2⌋` (JS rounds ties toward `+∞`).
-/

namespace FinVision

/-- JS `Math.round`: round to the nearest integer, ties toward `+∞`. -/
def jround (x : ℚ) : ℤ := ⌊x + 1/2⌋

/-- JS `Math.round(x * 10) / 10`: round to one decimal place. -/
def jround1 (x : ℚ) : ℚ := ((⌊x * 10 + 1/2⌋ : ℤ) : ℚ) / 10

/-- JS `a || b` where `a` is an optional number: `b` is used when `a` is
`undefined` or `0` (`0` is falsy in JS). -/
def orElseNum (a : Option ℚ) (b : ℚ) : ℚ :=
  match a with
  | some v => if v = 0 then b else v
  | none => b

/-! ### Data model (src/types.ts) -/

/-- One projected year (src/types.ts, `FinancialYear`). -/
structure FinancialYear where
  year : ℕ
  revenue : ℚ
  cogs : ℚ
  grossProfit : ℚ
  opex : ℚ
  ebitda : ℚ
  netIncome : ℚ
  cashBalance : ℚ
  deriving Repr, DecidableEq, Inhabited

/-- A named scenario with its projections (src/types.ts, `ScenarioData`). -/
structure ScenarioData where
  name : String
  description : String
  assumptions : List String
  projections : List FinancialYear
  deriving Repr, Inhabited

/-! ### Scenario projector (src/services/founderScenariosService.ts,
`generateScenariosFromInputs`) -/

/-- Caller inputs (`UserInputs`); optional fields carry their TS `?`. -/
structure UserInputs where
  companyName : String
  annualRevenue : ℚ
  monthlyExpenses : ℚ
  availableCash : ℚ
  industry : Option String
  country : Option String
  businessContext : String
  growthRate : Option ℚ
  deriving Repr, Inhabited

/-- Per-country configuration entry. -/
structure CountryConfig where
  taxRate : ℚ
  currency : String
  salaryMultiplier : ℚ
  deriving Repr, DecidableEq, Inhabited

/-- The country table from `getCountryConfig` (founderScenariosService). -/
def countryConfigs : List (String × CountryConfig) :=
  [("India", ⟨30/100, "₹", 1⟩),
   ("USA", ⟨21/100, "$", 4⟩),
   ("UK", ⟨19/100, "£", 35/10⟩),
   ("Germany", ⟨30/100, "€", 32/10⟩),
   ("Singapore", ⟨17/100, "S$", 28/10⟩),
   ("Australia", ⟨30/100, "A$", 3⟩),
   ("Canada", ⟨26/100, "C$", 31/10⟩),
   ("Japan", ⟨30/100, "¥", 25/10⟩),
   ("South Korea", ⟨25/100, "₩", 22/10⟩),
   ("China", ⟨25/100, "¥", 18/10⟩),
   ("Brazil", ⟨34/100, "R$", 15/10⟩),
   ("Mexico", ⟨30/100, "$", 13/10⟩),
   ("France", ⟨32/100, "€", 3⟩),
   ("Netherlands", ⟨25/100, "€", 34/10⟩),
   ("Switzerland", ⟨18/100, "CHF", 45/10⟩),
   ("Sweden", ⟨21/100, "kr", 33/10⟩),
   ("Norway", ⟨22/100, "kr", 42/10⟩),
   ("Denmark", ⟨22/100, "kr", 38/10⟩),
   ("Israel", ⟨23/100, "₪", 27/10⟩),
   ("UAE", ⟨9/100, "د.إ", 25/10⟩),
   ("Saudi Arabia", ⟨20/100, "ر.س", 23/10⟩),
   ("South Africa", ⟨28/100, "R", 8/10⟩),
   ("Nigeria", ⟨30/100, "₦", 6/10⟩),
   ("Kenya", ⟨30/100, "KSh", 5/10⟩),
   ("Egypt", ⟨22/100, "ج.م", 4/10⟩),
   ("Turkey", ⟨25/100, "₺", 7/10⟩),
   ("Russia", ⟨20/100, "₽", 9/10⟩),
   ("Poland", ⟨19/100, "zł", 14/10⟩),
   ("Czech Republic", ⟨19/100, "Kč", 12/10⟩),
   ("Hungary", ⟨9/100, "Ft", 11/10⟩),
   ("Romania", ⟨16/100, "lei", 9/10⟩),
   ("Bulgaria", ⟨10/100, "лв", 7/10⟩),
   ("Croatia", ⟨18/100, "€", 13/10⟩),
   ("Serbia", ⟨15/100, "дин", 6/10⟩),
   ("Ukraine", ⟨18/100, "₴", 5/10⟩),
   ("Belarus", ⟨18/100, "Br", 4/10⟩),
   ("Lithuania", ⟨15/100, "€", 15/10⟩),
   ("Latvia", ⟨20/100, "€", 13/10⟩),
   ("Estonia", ⟨20/100, "€", 16/10⟩),
   ("Finland", ⟨20/100, "€", 31/10⟩),
   ("Austria", ⟨25/100, "€", 3⟩),
   ("Belgium", ⟨29/100, "€", 32/10⟩),
   ("Spain", ⟨25/100, "€", 24/10⟩),
   ("Italy", ⟨24/100, "€", 26/10⟩),
   ("Portugal", ⟨21/100, "€", 18/10⟩),
   ("Greece", ⟨24/100, "€", 17/10⟩),
   ("Ireland", ⟨12/100, "€", 35/10⟩),
   ("Luxembourg", ⟨24/100, "€", 4⟩),
   ("Malta", ⟨35/100, "€", 22/10⟩),
   ("Cyprus", ⟨12/100, "€", 2⟩),
   ("Slovenia", ⟨19/100, "€", 19/10⟩),
   ("Slovakia", ⟨21/100, "€", 16/10⟩)]

/-- `getCountryConfig`: table lookup with fallback to the India entry. -/
def getCountryConfig (country : String) : CountryConfig :=
  (countryConfigs.lookup country).getD ⟨30/100, "₹", 1⟩

/-- `getStageAdjustedCosts`: stage multiplier on the industry base cost. -/
def getStageAdjustedCosts (revenue baseFixedCost countryMultiplier : ℚ) : ℚ :=
  if revenue < 1000000 then baseFixedCost * countryMultiplier * (3/10)
  else if revenue < 5000000 then baseFixedCost * countryMultiplier * (6/10)
  else if revenue < 20000000 then baseFixedCost * countryMultiplier * 1
  else baseFixedCost * countryMultiplier * (15/10)

/-- One row of the industry table inside `getMarginProfile`. -/
structure IndustryProfile where
  grossMargin : ℚ
  baseCost : ℚ
  variableOpexRate : ℚ
  deriving Repr, DecidableEq, Inhabited

/-- The industry table (`baseProfiles` in `getMarginProfile`). -/
def baseProfiles : List (String × IndustryProfile) :=
  [("SaaS", ⟨60/100, 2000000, 15/100⟩),
   ("E-commerce", ⟨25/100, 2500000, 25/100⟩),
   ("FinTech", ⟨50/100, 3000000, 18/100⟩),
   ("HealthTech", ⟨55/100, 3500000, 20/100⟩),
   ("Manufacturing", ⟨30/100, 4000000, 35/100⟩)]

/-- The record returned by `getMarginProfile`. -/
structure MarginProfile where
  grossMargin : ℚ
  ebitdaMargin : ℚ
  fixedOpex : ℚ
  variableOpexRate : ℚ
  taxRate : ℚ
  deriving Repr, DecidableEq, Inhabited

/-- `getMarginProfile`: industry ratios plus country tax and cost scale. -/
def getMarginProfile (industry : String) (userAnnualRevenue : ℚ)
    (cc : CountryConfig) : MarginProfile :=
  let profile := (baseProfiles.lookup industry).getD ⟨60/100, 2000000, 15/100⟩
  { grossMargin := profile.grossMargin
    ebitdaMargin := profile.grossMargin - profile.variableOpexRate
    fixedOpex := getStageAdjustedCosts userAnnualRevenue profile.baseCost
      cc.salaryMultiplier
    variableOpexRate := profile.variableOpexRate
    taxRate := cc.taxRate }

/-- The `countryConfig` local of `generateScenariosFromInputs`
(destructuring default: country falls back to "India"). -/
def scenarioCountryConfig (u : UserInputs) : CountryConfig :=
  getCountryConfig (u.country.getD "India")

/-- The `marginProfile` local of `generateScenariosFromInputs`
(destructuring default: industry falls back to "SaaS"). -/
def scenarioMarginProfile (u : UserInputs) : MarginProfile :=
  getMarginProfile (u.industry.getD "SaaS") u.annualRevenue
    (scenarioCountryConfig u)

/-- The `derivedFixedOpex` local: fixed Opex derived from user inputs. -/
def derivedFixedOpex (u : UserInputs) : ℚ :=
  let mp := scenarioMarginProfile u
  let baseCogs := u.annualRevenue * (1 - mp.grossMargin)
  let baseAnnualExpenses := u.monthlyExpenses * 12
  let baseOpex := baseAnnualExpenses - baseCogs
  let baseVariableOpex := u.annualRevenue * mp.variableOpexRate
  baseOpex - baseVariableOpex

/-- One projection year before `Math.round` is applied to each field. -/
structure RawYear where
  revenue : ℚ
  cogs : ℚ
  grossProfit : ℚ
  opex : ℚ
  ebitda : ℚ
  netIncome : ℚ
  deriving Repr, DecidableEq, Inhabited

/-- `yearEbitda > 0 ? yearEbitda * (1 - taxRate) : yearEbitda` — losses are
not tax-shielded. -/
def netIncomeOf (ebitda taxRate : ℚ) : ℚ :=
  if 0 < ebitda then ebitda * (1 - taxRate) else ebitda

/-- Optimistic gross margin for a year (founderScenariosService line 340):
`Math.min(grossMargin + 0.05 + (year - 1) * 0.02, 0.85)`. -/
def optGrossMargin (gm : ℚ) (year : ℕ) : ℚ :=
  min (gm + 5/100 + ((year : ℚ) - 1) * (2/100)) (85/100)

/-- Pessimistic gross margin for a year (founderScenariosService line 384):
`Math.max(grossMargin - 0.03 - (year - 1) * 0.01, 0.15)`. -/
def pessGrossMargin (gm : ℚ) (year : ℕ) : ℚ :=
  max (gm - 3/100 - ((year : ℚ) - 1) * (1/100)) (15/100)

/-- Base-scenario year, pre-rounding (loop at line 291). -/
def baseRawYear (u : UserInputs) (year : ℕ) : RawYear :=
  let mp := scenarioMarginProfile u
  let yearRevenue :=
    if year = 1 then u.annualRevenue
    else u.annualRevenue * (11/10) ^ (year - 1)
  let yearCogs := yearRevenue * (1 - mp.grossMargin)
  let yearGrossProfit := yearRevenue - yearCogs
  let yearOpex := derivedFixedOpex u + yearRevenue * mp.variableOpexRate
  let yearEbitda := yearGrossProfit - yearOpex
  ⟨yearRevenue, yearCogs, yearGrossProfit, yearOpex, yearEbitda,
    netIncomeOf yearEbitda mp.taxRate⟩

/-- Optimistic-scenario year, pre-rounding (loop at line 336). -/
def optRawYear (u : UserInputs) (year : ℕ) : RawYear :=
  let mp := scenarioMarginProfile u
  let yearRevenue :=
    if year = 1 then u.annualRevenue
    else u.annualRevenue * (5/4) ^ (year - 1)
  let yearGrossMargin := optGrossMargin mp.grossMargin year
  let yearGrossProfit := yearRevenue * yearGrossMargin
  let yearCogs := yearRevenue - yearGrossProfit
  let yearVariableOpexRate := mp.variableOpexRate * (19/20) ^ (year - 1)
  let yearOpex := derivedFixedOpex u + yearRevenue * yearVariableOpexRate
  let yearEbitda := yearGrossProfit - yearOpex
  ⟨yearRevenue, yearCogs, yearGrossProfit, yearOpex, yearEbitda,
    netIncomeOf yearEbitda mp.taxRate⟩

/-- Pessimistic-scenario year, pre-rounding (loop at line 380). -/
def pessRawYear (u : UserInputs) (year : ℕ) : RawYear :=
  let mp := scenarioMarginProfile u
  let yearRevenue :=
    if year = 1 then u.annualRevenue
    else u.annualRevenue * (19/20) ^ (year - 1)
  let yearGrossMargin := pessGrossMargin mp.grossMargin year
  let yearGrossProfit := yearRevenue * yearGrossMargin
  let yearCogs := yearRevenue - yearGrossProfit
  let yearVariableOpexRate := mp.variableOpexRate * (21/20) ^ (year - 1)
  let yearOpex := derivedFixedOpex u + yearRevenue * yearVariableOpexRate
  let yearEbitda := yearGrossProfit - yearOpex
  ⟨yearRevenue, yearCogs, yearGrossProfit, yearOpex, yearEbitda,
    netIncomeOf yearEbitda mp.taxRate⟩

/-- The `projections.push` body: round every field; the cash balance is
`Math.round(Math.max(0, cashIn + netIncome))`. -/
def pushYear (year : ℕ) (r : RawYear) (cashIn : ℚ) : FinancialYear :=
  { year := year
    revenue := (jround r.revenue : ℚ)
    cogs := (jround r.cogs : ℚ)
    grossProfit := (jround r.grossProfit : ℚ)
    opex := (jround r.opex : ℚ)
    ebitda := (jround r.ebitda : ℚ)
    netIncome := (jround r.netIncome : ℚ)
    cashBalance := (jround (max 0 (cashIn + r.netIncome)) : ℚ) }

/-- The three-iteration projection loop: year 1 starts from the user's
available cash; later years start from the previous pushed cash balance. -/
def projectThree (raw : ℕ → RawYear) (startingCash : ℚ) :
    List FinancialYear :=
  let y1 := pushYear 1 (raw 1) startingCash
  let y2 := pushYear 2 (raw 2) y1.cashBalance
  let y3 := pushYear 3 (raw 3) y2.cashBalance
  [y1, y2, y3]

/-- JS string interpolation `companyName ? companyName + suffix : fallback`
(the empty string is falsy). -/
def scenarioName (companyName suffix fallback : String) : String :=
  if companyName = "" then fallback else companyName ++ suffix

/-- Decimal display formatting (JS `toFixed`) is presentational float
formatting; it is modelled as plain printing of the rational. -/
def fmtNum (x : ℚ) : String := toString x

/-- The `baseScenario` constant of `generateScenariosFromInputs`. -/
def baseScenario (u : UserInputs) : ScenarioData :=
  let industry := u.industry.getD "SaaS"
  let country := u.country.getD "India"
  let cc := scenarioCountryConfig u
  let mp := scenarioMarginProfile u
  { name := scenarioName u.companyName " - Business Plan" "Your Business Plan"
    description := "Early-stage " ++ industry ++ " in " ++ country ++
      (if u.businessContext = "" then ""
       else " - " ++ u.businessContext.take 50 ++ "...")
    assumptions :=
      ["Year 1 Revenue: " ++ cc.currency ++ fmtNum (u.annualRevenue / 100000)
         ++ "L (your input)",
       "Monthly Expenses: " ++ cc.currency ++ fmtNum (u.monthlyExpenses / 1000)
         ++ "K (your input)",
       "Starting Cash: " ++ cc.currency ++ fmtNum (u.availableCash / 100000)
         ++ "L (your input)",
       "Tax Rate: " ++ fmtNum (mp.taxRate * 100) ++ "% (" ++ country
         ++ " corporate tax)",
       "Industry: " ++ industry ++ " with " ++ fmtNum (mp.grossMargin * 100)
         ++ "% gross margin"]
    projections := projectThree (baseRawYear u) u.availableCash }

/-- The `optimisticScenario` constant of `generateScenariosFromInputs`. -/
def optimisticScenario (u : UserInputs) : ScenarioData :=
  { name := scenarioName u.companyName " - Growth Scenario" "Growth Scenario"
    description := "AI feature launch success with market expansion in "
      ++ u.country.getD "India"
    assumptions :=
      ["25% annual revenue growth from AI features",
       "Improved gross margins through automation",
       "Successful market expansion",
       "Economies of scale in operations"]
    projections := projectThree (optRawYear u) u.availableCash }

/-- The `pessimisticScenario` constant of `generateScenariosFromInputs`. -/
def pessimisticScenario (u : UserInputs) : ScenarioData :=
  { name := scenarioName u.companyName " - Conservative Scenario"
      "Conservative Scenario"
    description := "Legacy provider competition and market challenges in "
      ++ u.country.getD "India"
    assumptions :=
      ["5% annual revenue decline due to competition",
       "Increased customer acquisition costs",
       "Margin pressure from legacy providers",
       "Higher operational costs"]
    projections := projectThree (pessRawYear u) u.availableCash }

/-- `generateScenariosFromInputs`: the three scenarios, in source order
Base ("Business Plan"), Optimistic ("Growth"), Pessimistic ("Conservative"). -/
def generateScenariosFromInputs (u : UserInputs) : List ScenarioData :=
  [baseScenario u, optimisticScenario u, pessimisticScenario u]

/-! ### Rounding lemmas -/

lemma jround_le (x : ℚ) : (jround x : ℚ) ≤ x + 1/2 := by
  rw [jround]
  exact_mod_cast Int.floor_le (x + 1/2)

lemma lt_jround (x : ℚ) : x - 1/2 < (jround x : ℚ) := by
  have h := Int.lt_floor_add_one (x + 1/2)
  rw [jround]
  linarith

lemma jround_abs_sub_le (x : ℚ) : |(jround x : ℚ) - x| ≤ 1/2 := by
  have h1 := jround_le x
  have h2 := lt_jround x
  rw [abs_le]
  constructor <;> linarith

/-- Rounding each operand and rounding the difference agree to one unit. -/
lemma jround_sub_abs_le (a b : ℚ) :
    |(jround (a - b) : ℚ) - ((jround a : ℚ) - (jround b : ℚ))| ≤ 1 := by
  have key : |(jround (a - b) : ℚ) - ((jround a : ℚ) - (jround b : ℚ))| < 3/2 := by
    have h1 := jround_le (a - b)
    have h2 := lt_jround (a - b)
    have h3 := jround_le a
    have h4 := lt_jround a
    have h5 := jround_le b
    have h6 := lt_jround b
    rw [abs_lt]
    constructor <;> linarith
  have hcast : (jround (a - b) : ℚ) - ((jround a : ℚ) - (jround b : ℚ)) =
      ((jround (a - b) - jround a + jround b : ℤ) : ℚ) := by
    push_cast
    ring
  rw [hcast] at key ⊢
  rw [← Int.cast_abs] at key ⊢
  have hlt : |jround (a - b) - jround a + jround b| < 2 := by
    exact_mod_cast lt_trans key (by norm_num : (3/2 : ℚ) < 2)
  have hle : |jround (a - b) - jround a + jround b| ≤ 1 := by omega
  exact_mod_cast hle

/-! ### Raw-year arithmetic consistency -/

lemma baseRawYear_gp (u : UserInputs) (y : ℕ) :
    (baseRawYear u y).grossProfit = (baseRawYear u y).revenue - (baseRawYear u y).cogs := by
  simp only [baseRawYear]

lemma baseRawYear_eb (u : UserInputs) (y : ℕ) :
    (baseRawYear u y).ebitda = (baseRawYear u y).grossProfit - (baseRawYear u y).opex := by
  simp only [baseRawYear]

lemma optRawYear_gp (u : UserInputs) (y : ℕ) :
    (optRawYear u y).grossProfit = (optRawYear u y).revenue - (optRawYear u y).cogs := by
  simp only [optRawYear]
  ring

lemma optRawYear_eb (u : UserInputs) (y : ℕ) :
    (optRawYear u y).ebitda = (optRawYear u y).grossProfit - (optRawYear u y).opex := by
  simp only [optRawYear]

lemma pessRawYear_gp (u : UserInputs) (y : ℕ) :
    (pessRawYear u y).grossProfit = (pessRawYear u y).revenue - (pessRawYear u y).cogs := by
  simp only [pessRawYear]
  ring

lemma pessRawYear_eb (u : UserInputs) (y : ℕ) :
    (pessRawYear u y).ebitda = (pessRawYear u y).grossProfit - (pessRawYear u y).opex := by
  simp only [pessRawYear]

/-- A pushed year whose raw fields are arithmetically consistent satisfies the
validator's 1-unit rounding-tolerance invariant. -/
lemma pushYear_invariant (y : ℕ) (r : RawYear) (c : ℚ)
    (hg : r.grossProfit = r.revenue - r.cogs)
    (he : r.ebitda = r.grossProfit - r.opex) :
    |(pushYear y r c).grossProfit -
        ((pushYear y r c).revenue - (pushYear y r c).cogs)| ≤ 1 ∧
    |(pushYear y r c).ebitda -
        ((pushYear y r c).grossProfit - (pushYear y r c).opex)| ≤ 1 := by
  simp only [pushYear]
  constructor
  · have h := jround_sub_abs_le r.revenue r.cogs
    rwa [← hg] at h
  · have h := jround_sub_abs_le r.grossProfit r.opex
    rwa [← he] at h

/-- Membership in `projectThree` is membership in one of the three pushes. -/
lemma mem_projectThree {p : FinancialYear} {raw : ℕ → RawYear} {c : ℚ}
    (hp : p ∈ projectThree raw c) :
    p = pushYear 1 (raw 1) c ∨
    p = pushYear 2 (raw 2) (pushYear 1 (raw 1) c).cashBalance ∨
    p = pushYear 3 (raw 3)
        (pushYear 2 (raw 2) (pushYear 1 (raw 1) c).cashBalance).cashBalance := by
  simpa [projectThree] using hp

/-! ### Claim C2 -/

/-- C2: every `FinancialYear` produced by the scenario projector satisfies
the arithmetic-consistency invariant `|grossProfit - (revenue - cogs)| ≤ 1`
and `|ebitda - (grossProfit - opex)| ≤ 1`, for all three scenarios, all
three years, and every input. -/
theorem claim_C2 (u : UserInputs) (s : ScenarioData)
    (hs : s ∈ generateScenariosFromInputs u) (p : FinancialYear)
    (hp : p ∈ s.projections) :
    |p.grossProfit - (p.revenue - p.cogs)| ≤ 1 ∧
    |p.ebitda - (p.grossProfit - p.opex)| ≤ 1 := by
  have hs3 : s = baseScenario u ∨ s = optimisticScenario u ∨
      s = pessimisticScenario u := by
    simpa [generateScenariosFromInputs] using hs
  rcases hs3 with h | h | h <;> subst h
  · have hp3 := mem_projectThree (by simpa [baseScenario] using hp)
    rcases hp3 with h | h | h <;> subst h <;>
      exact pushYear_invariant _ _ _ (baseRawYear_gp u _) (baseRawYear_eb u _)
  · have hp3 := mem_projectThree (by simpa [optimisticScenario] using hp)
    rcases hp3 with h | h | h <;> subst h <;>
      exact pushYear_invariant _ _ _ (optRawYear_gp u _) (optRawYear_eb u _)
  · have hp3 := mem_projectThree (by simpa [pessimisticScenario] using hp)
    rcases hp3 with h | h | h <;> subst h <;>
      exact pushYear_invariant _ _ _ (pessRawYear_gp u _) (pessRawYear_eb u _)

/-- Concrete caller inputs used by the witnesses: the worked example of the
specification (`revenue 500000, monthlyExpenses 35000, cash 120000`). -/
def u0 : UserInputs :=
  { companyName := ""
    annualRevenue := 500000
    monthlyExpenses := 35000
    availableCash := 120000
    industry := none
    country := none
    businessContext := ""
    growthRate := none }

/-- Witness for C2 at the base scenario's first projected year of `u0`. -/
theorem claim_C2_witness :
    |((baseScenario u0).projections.getD 0 default).grossProfit -
        (((baseScenario u0).projections.getD 0 default).revenue -
          ((baseScenario u0).projections.getD 0 default).cogs)| ≤ 1 ∧
    |((baseScenario u0).projections.getD 0 default).ebitda -
        (((baseScenario u0).projections.getD 0 default).grossProfit -
          ((baseScenario u0).projections.getD 0 default).opex)| ≤ 1 :=
  claim_C2 u0 (baseScenario u0) (by simp [generateScenariosFromInputs])
    ((baseScenario u0).projections.getD 0 default)
    (by simp [baseScenario, projectThree])

/-! ### Claim C1 -/

/-- The cash-balance field as pushed is within one unit of
`max(0, startingCash + netIncome)` computed from the rounded net income. -/
lemma jround_cash_abs_le (c n : ℚ) :
    |(jround (max 0 (c + n)) : ℚ) - max 0 (c + (jround n : ℚ))| ≤ 1 := by
  have h1 := jround_abs_sub_le (max 0 (c + n))
  have h2 : |max 0 (c + n) - max 0 (c + (jround n : ℚ))| ≤
      |(c + n) - (c + (jround n : ℚ))| := by
    simpa [max_comm] using
      abs_max_sub_max_le_abs (c + n) (c + (jround n : ℚ)) 0
  have h3 := jround_abs_sub_le n
  have htri := abs_sub_le ((jround (max 0 (c + n)) : ℚ)) (max 0 (c + n))
    (max 0 (c + (jround n : ℚ)))
  have h4 : |(c + n) - (c + (jround n : ℚ))| = |(jround n : ℚ) - n| := by
    rw [show (c + n) - (c + (jround n : ℚ)) = -((jround n : ℚ) - n) by ring,
      abs_neg]
  linarith

/-- C1: in every returned scenario, year-1 revenue is the caller's
`annualRevenue` up to integer rounding, and the year-1 cash balance is
`max(0, availableCash + netIncome₁)` up to rounding, independent of policy. -/
theorem claim_C1 (u : UserInputs) (s : ScenarioData)
    (hs : s ∈ generateScenariosFromInputs u) :
    |(s.projections.getD 0 default).revenue - u.annualRevenue| ≤ 1/2 ∧
    |(s.projections.getD 0 default).cashBalance -
        max 0 (u.availableCash + (s.projections.getD 0 default).netIncome)| ≤ 1 := by
  have hs3 : s = baseScenario u ∨ s = optimisticScenario u ∨
      s = pessimisticScenario u := by
    simpa [generateScenariosFromInputs] using hs
  have hbase : (baseRawYear u 1).revenue = u.annualRevenue := by
    simp [baseRawYear]
  have hopt : (optRawYear u 1).revenue = u.annualRevenue := by
    simp [optRawYear]
  have hpess : (pessRawYear u 1).revenue = u.annualRevenue := by
    simp [pessRawYear]
  rcases hs3 with h | h | h <;> subst h
  · refine ⟨?_, ?_⟩
    · show |(jround (baseRawYear u 1).revenue : ℚ) - u.annualRevenue| ≤ 1/2
      rw [hbase]
      exact jround_abs_sub_le u.annualRevenue
    · exact jround_cash_abs_le u.availableCash (baseRawYear u 1).netIncome
  · refine ⟨?_, ?_⟩
    · show |(jround (optRawYear u 1).revenue : ℚ) - u.annualRevenue| ≤ 1/2
      rw [hopt]
      exact jround_abs_sub_le u.annualRevenue
    · exact jround_cash_abs_le u.availableCash (optRawYear u 1).netIncome
  · refine ⟨?_, ?_⟩
    · show |(jround (pessRawYear u 1).revenue : ℚ) - u.annualRevenue| ≤ 1/2
      rw [hpess]
      exact jround_abs_sub_le u.annualRevenue
    · exact jround_cash_abs_le u.availableCash (pessRawYear u 1).netIncome

/-- Witness for C1 at the optimistic scenario of `u0`. -/
theorem claim_C1_witness :
    |((optimisticScenario u0).projections.getD 0 default).revenue -
        u0.annualRevenue| ≤ 1/2 ∧
    |((optimisticScenario u0).projections.getD 0 default).cashBalance -
        max 0 (u0.availableCash +
          ((optimisticScenario u0).projections.getD 0 default).netIncome)| ≤ 1 :=
  claim_C1 u0 (optimisticScenario u0) (by simp [generateScenariosFromInputs])

/-! ### Claim C5 -/

lemma min_add_shift (a c d : ℚ) (hd : 0 ≤ d) :
    min (min a c + d) c = min (a + d) c := by
  simp only [min_def]
  split_ifs <;> linarith

lemma max_sub_shift (a c d : ℚ) (hd : 0 ≤ d) :
    max (max a c - d) c = max (a - d) c := by
  simp only [max_def]
  split_ifs <;> linarith

/-- C5: per-policy gross-margin drift.  The optimistic margin of year `y+1`
is the year-`y` margin plus 2 points capped at 85%, the pessimistic margin
is the year-`y` margin minus 1 point floored at 15%, and the base scenario's
raw gross profit is always `revenue × industry gross margin` (margin held
constant).  The last two conjuncts tie the margin functions to the projected
years of the optimistic and pessimistic scenarios. -/
theorem claim_C5 (u : UserInputs) (y : ℕ) :
    optGrossMargin (scenarioMarginProfile u).grossMargin (y + 1) =
      min (optGrossMargin (scenarioMarginProfile u).grossMargin y + 2/100)
        (85/100) ∧
    pessGrossMargin (scenarioMarginProfile u).grossMargin (y + 1) =
      max (pessGrossMargin (scenarioMarginProfile u).grossMargin y - 1/100)
        (15/100) ∧
    (baseRawYear u y).grossProfit =
      (baseRawYear u y).revenue * (scenarioMarginProfile u).grossMargin ∧
    (optRawYear u y).grossProfit =
      (optRawYear u y).revenue *
        optGrossMargin (scenarioMarginProfile u).grossMargin y ∧
    (pessRawYear u y).grossProfit =
      (pessRawYear u y).revenue *
        pessGrossMargin (scenarioMarginProfile u).grossMargin y := by
  refine ⟨?_, ?_, ?_, ?_, ?_⟩
  · rw [optGrossMargin, optGrossMargin, min_add_shift _ _ _ (by norm_num)]
    congr 1
    push_cast
    ring
  · rw [pessGrossMargin, pessGrossMargin, max_sub_shift _ _ _ (by norm_num)]
    congr 1
    push_cast
    ring
  · simp only [baseRawYear]
    ring
  · simp only [optRawYear]
  · simp only [pessRawYear]

/-! ### Claim C6 -/

lemma projectThree_getD1 (raw : ℕ → RawYear) (c : ℚ) :
    (projectThree raw c).getD 1 default =
      pushYear 2 (raw 2) ((pushYear 1 (raw 1) c).cashBalance) := rfl

lemma projectThree_getD2 (raw : ℕ → RawYear) (c : ℚ) :
    (projectThree raw c).getD 2 default =
      pushYear 3 (raw 3)
        ((pushYear 2 (raw 2) ((pushYear 1 (raw 1) c).cashBalance)).cashBalance) :=
  rfl

/-- C6: for years 2 and 3 the projected revenue is exactly the rounding of
`annualRevenue × growthRate^(year-1)`, with growth 1.10 (Base), 1.25
(Optimistic) and 0.95 (Pessimistic); hence it is within 1/2 of the
unrounded compound value. -/
theorem claim_C6 (u : UserInputs) :
    (((baseScenario u).projections.getD 1 default).revenue =
        (jround (u.annualRevenue * (11/10) ^ 1) : ℚ) ∧
      ((baseScenario u).projections.getD 2 default).revenue =
        (jround (u.annualRevenue * (11/10) ^ 2) : ℚ) ∧
      ((optimisticScenario u).projections.getD 1 default).revenue =
        (jround (u.annualRevenue * (5/4) ^ 1) : ℚ) ∧
      ((optimisticScenario u).projections.getD 2 default).revenue =
        (jround (u.annualRevenue * (5/4) ^ 2) : ℚ) ∧
      ((pessimisticScenario u).projections.getD 1 default).revenue =
        (jround (u.annualRevenue * (19/20) ^ 1) : ℚ) ∧
      ((pessimisticScenario u).projections.getD 2 default).revenue =
        (jround (u.annualRevenue * (19/20) ^ 2) : ℚ)) ∧
    (|((baseScenario u).projections.getD 1 default).revenue -
        u.annualRevenue * (11/10) ^ 1| ≤ 1/2 ∧
      |((baseScenario u).projections.getD 2 default).revenue -
        u.annualRevenue * (11/10) ^ 2| ≤ 1/2 ∧
      |((optimisticScenario u).projections.getD 1 default).revenue -
        u.annualRevenue * (5/4) ^ 1| ≤ 1/2 ∧
      |((optimisticScenario u).projections.getD 2 default).revenue -
        u.annualRevenue * (5/4) ^ 2| ≤ 1/2 ∧
      |((pessimisticScenario u).projections.getD 1 default).revenue -
        u.annualRevenue * (19/20) ^ 1| ≤ 1/2 ∧
      |((pessimisticScenario u).projections.getD 2 default).revenue -
        u.annualRevenue * (19/20) ^ 2| ≤ 1/2) := by
  have hb1 : ((baseScenario u).projections.getD 1 default).revenue =
      (jround (u.annualRevenue * (11/10) ^ 1) : ℚ) := by
    simp only [baseScenario]
    rw [projectThree_getD1]
    simp [pushYear, baseRawYear]
  have hb2 : ((baseScenario u).projections.getD 2 default).revenue =
      (jround (u.annualRevenue * (11/10) ^ 2) : ℚ) := by
    simp only [baseScenario]
    rw [projectThree_getD2]
    simp [pushYear, baseRawYear]
  have ho1 : ((optimisticScenario u).projections.getD 1 default).revenue =
      (jround (u.annualRevenue * (5/4) ^ 1) : ℚ) := by
    simp only [optimisticScenario]
    rw [projectThree_getD1]
    simp [pushYear, optRawYear]
  have ho2 : ((optimisticScenario u).projections.getD 2 default).revenue =
      (jround (u.annualRevenue * (5/4) ^ 2) : ℚ) := by
    simp only [optimisticScenario]
    rw [projectThree_getD2]
    simp [pushYear, optRawYear]
  have hp1 : ((pessimisticScenario u).projections.getD 1 default).revenue =
      (jround (u.annualRevenue * (19/20) ^ 1) : ℚ) := by
    simp only [pessimisticScenario]
    rw [projectThree_getD1]
    simp [pushYear, pessRawYear]
  have hp2 : ((pessimisticScenario u).projections.getD 2 default).revenue =
      (jround (u.annualRevenue * (19/20) ^ 2) : ℚ) := by
    simp only [pessimisticScenario]
    rw [projectThree_getD2]
    simp [pushYear, pessRawYear]
  refine ⟨⟨hb1, hb2, ho1, ho2, hp1, hp2⟩, ?_, ?_, ?_, ?_, ?_, ?_⟩ <;>
    first
      | (rw [hb1]; exact jround_abs_sub_le _)
      | (rw [hb2]; exact jround_abs_sub_le _)
      | (rw [ho1]; exact jround_abs_sub_le _)
      | (rw [ho2]; exact jround_abs_sub_le _)
      | (rw [hp1]; exact jround_abs_sub_le _)
      | (rw [hp2]; exact jround_abs_sub_le _)

end FinVision

namespace FinVision

/-! ### Runway calculator (src/services/runwayUtils.ts, `calculateRunway`) -/

/-- The record returned by `calculateRunway` (`RunwayStatus`). -/
structure RunwayStatus where
  months : ℚ
  status : String
  label : String
  riskLevel : String
  deriving Repr, DecidableEq, Inhabited

/-- `calculateRunway`: clamp cash and burn, net burn floored at 1, months
clamped at 0 and rounded to one decimal, with the status tier chain applied
to the unrounded months figure. -/
def calculateRunway (currentCash monthlyBurn monthlyRevenue : ℚ) :
    RunwayStatus :=
  let safeCash := max 0 currentCash
  let safeBurn := max 1 monthlyBurn
  let netBurn := max 1 (safeBurn - monthlyRevenue)
  let runwayMonths := max 0 (safeCash / netBurn)
  let tier : String × String × String :=
    if runwayMonths = 0 then
      ("Exhausted", "Runway exhausted - Immediate shutdown risk", "Critical")
    else if runwayMonths < 3 then
      ("Critical", "Critical runway - Emergency funding needed", "Critical")
    else if runwayMonths < 6 then
      ("Critical", "Low runway - Urgent funding required", "High")
    else if runwayMonths < 12 then
      ("Caution", "Moderate runway - Plan fundraising", "Medium")
    else if runwayMonths < 18 then
      ("Caution", "Adequate runway - Monitor closely", "Medium")
    else ("Healthy", "Strong runway - Focus on growth", "Low")
  { months := jround1 runwayMonths
    status := tier.1
    label := tier.2.1
    riskLevel := tier.2.2 }

/-! ### Claim C7 -/

lemma jround1_mono {x y : ℚ} (h : x ≤ y) : jround1 x ≤ jround1 y := by
  rw [jround1, jround1]
  have hf : ⌊x * 10 + 1/2⌋ ≤ ⌊y * 10 + 1/2⌋ :=
    Int.floor_mono (by linarith)
  have hq : ((⌊x * 10 + 1/2⌋ : ℤ) : ℚ) ≤ ((⌊y * 10 + 1/2⌋ : ℤ) : ℚ) := by
    exact_mod_cast hf
  linarith

/-- C7: `calculateRunway` returns 0 months on zero cash for any positive
burn, and the months figure is monotonically non-decreasing in cash and
non-increasing in burn, holding the other arguments fixed. -/
theorem claim_C7 :
    (∀ burn rev : ℚ, 0 < burn → (calculateRunway 0 burn rev).months = 0) ∧
    (∀ cashA cashB burn rev : ℚ, 0 ≤ cashA → 0 < burn → 0 ≤ rev →
      cashA ≤ cashB →
      (calculateRunway cashA burn rev).months ≤
        (calculateRunway cashB burn rev).months) ∧
    (∀ cash burnA burnB rev : ℚ, 0 ≤ cash → 0 < burnA → 0 ≤ rev →
      burnA ≤ burnB →
      (calculateRunway cash burnB rev).months ≤
        (calculateRunway cash burnA rev).months) := by
  refine ⟨?_, ?_, ?_⟩
  · intro burn rev _
    norm_num [calculateRunway, jround1]
  · intro cashA cashB burn rev hA hb hr hle
    have hnb : (0:ℚ) < max 1 (max 1 burn - rev) := lt_of_lt_of_le one_pos (le_max_left _ _)
    apply jround1_mono
    apply max_le_max le_rfl
    exact (div_le_div_iff_of_pos_right hnb).mpr (max_le_max le_rfl hle)
  · intro cash burnA burnB rev hc hbA hr hle
    have hnbA : (0:ℚ) < max 1 (max 1 burnA - rev) := lt_of_lt_of_le one_pos (le_max_left _ _)
    have hnble : max 1 (max 1 burnA - rev) ≤ max 1 (max 1 burnB - rev) :=
      max_le_max le_rfl (sub_le_sub_right (max_le_max le_rfl hle) rev)
    apply jround1_mono
    apply max_le_max le_rfl
    have hnn : (0:ℚ) ≤ max 0 cash := le_max_left _ _
    exact div_le_div_of_nonneg_left hnn hnbA hnble

/-- Witness for C7 at concrete cash/burn values. -/
theorem claim_C7_witness :
    (calculateRunway 0 5 0).months = 0 ∧
    (calculateRunway 100 5 0).months ≤ (calculateRunway 200 5 0).months ∧
    (calculateRunway 100 7 0).months ≤ (calculateRunway 100 5 0).months :=
  ⟨claim_C7.1 5 0 (by norm_num),
   claim_C7.2.1 100 200 5 0 (by norm_num) (by norm_num) (by norm_num)
     (by norm_num),
   claim_C7.2.2 100 5 7 0 (by norm_num) (by norm_num) (by norm_num)
     (by norm_num)⟩

end FinVision

namespace FinVision

/-! ### Break-even analyzer (src/services/breakEvenService.ts,
`calculateBreakEven`) -/

/-- JS truthiness of an optional number (`undefined` and `0` are falsy). -/
def jsTruthy (a : Option ℚ) : Bool :=
  match a with
  | some v => v ≠ 0
  | none => false

/-- The `userInputs` sub-object of the break-even assumptions. -/
structure BreakEvenUserInputs where
  monthlyExpenses : ℚ
  availableCash : ℚ
  deriving Repr, DecidableEq, Inhabited

/-- The optional assumptions argument of `calculateBreakEven`. -/
structure BreakEvenAssumptions where
  pricePerUnit : Option ℚ
  variableCostPerUnit : Option ℚ
  currentCash : Option ℚ
  userInputs : Option BreakEvenUserInputs
  deriving Repr, DecidableEq, Inhabited

/-- The record returned by `calculateBreakEven` (`BreakEvenAnalysis`). -/
structure BreakEvenAnalysis where
  breakEvenRevenue : ℚ
  breakEvenUnits : ℚ
  marginOfSafety : ℚ
  operatingLeverage : ℚ
  runway : RunwayStatus
  burnRate : ℚ
  breakEvenMonth : ℚ
  monthsToBreakEven : ℚ
  requiredGrowthRate : ℚ
  probability : ℚ
  strategy : List String
  deriving Repr, Inhabited

/-- The `firstYear` local of `calculateBreakEven`. -/
def beFirstYear (scenario : ScenarioData) : FinancialYear :=
  scenario.projections.getD 0 default

/-- The `secondYear` local of `calculateBreakEven`. -/
def beSecondYear (scenario : ScenarioData) : FinancialYear :=
  scenario.projections.getD 1 default

/-- The `currentCash` local: `assumptions.currentCash ||
assumptions.userInputs?.availableCash || firstYear.cashBalance`. -/
def beCurrentCash (scenario : ScenarioData) (a : BreakEvenAssumptions) : ℚ :=
  orElseNum a.currentCash
    (orElseNum (a.userInputs.map (fun ui => ui.availableCash))
      (beFirstYear scenario).cashBalance)

/-- The `actualMonthlyCosts` local: the larger of the user's monthly
expenses and the projection's monthly cost base. -/
def beMonthlyCosts (scenario : ScenarioData) (a : BreakEvenAssumptions) : ℚ :=
  max (orElseNum (a.userInputs.map (fun ui => ui.monthlyExpenses)) 0)
    (((beFirstYear scenario).cogs + (beFirstYear scenario).opex) / 12)

/-- The `runway` local of `calculateBreakEven`. -/
def beRunway (scenario : ScenarioData) (a : BreakEvenAssumptions) :
    RunwayStatus :=
  calculateRunway (beCurrentCash scenario a) (beMonthlyCosts scenario a)
    ((beFirstYear scenario).revenue / 12)

/-- The `breakEvenRevenue` local: `opex₁ / (1 - cogs₁/revenue₁)`. -/
def beRevenue (scenario : ScenarioData) : ℚ :=
  (beFirstYear scenario).opex /
    (1 - (beFirstYear scenario).cogs / (beFirstYear scenario).revenue)

/-- The `monthsToBreakEven` local (pre-rounding): 0 once revenue covers the
break-even level, else the growth-paced estimate capped at 36, falling back
to the runway months on non-positive growth. -/
def beM2be (scenario : ScenarioData) (a : BreakEvenAssumptions) : ℚ :=
  if beRevenue scenario ≤ (beFirstYear scenario).revenue then 0
  else
    if 0 < ((beSecondYear scenario).revenue - (beFirstYear scenario).revenue) / 12
    then
      min 36 ((beRevenue scenario - (beFirstYear scenario).revenue) /
        (((beSecondYear scenario).revenue - (beFirstYear scenario).revenue) / 12))
    else (beRunway scenario a).months

/-- The `probability` local: the deterministic bucket keyed on the runway
months (boundary at 12 months). -/
def beProbability (scenario : ScenarioData) (a : BreakEvenAssumptions) : ℚ :=
  if beM2be scenario a = 0 then 100
  else if beM2be scenario a ≤ (beRunway scenario a).months ∧
      12 < (beRunway scenario a).months then 80
  else if beM2be scenario a ≤ (beRunway scenario a).months then 60
  else 30

/-- `calculateBreakEven`: break-even revenue from the contribution margin,
months to break even from the year-over-year growth, and the probability
bucket keyed on the runway months. -/
def calculateBreakEven (scenario : ScenarioData)
    (assumptions : BreakEvenAssumptions) : BreakEvenAnalysis :=
  let firstYear := beFirstYear scenario
  let runway := beRunway scenario assumptions
  let breakEvenRevenue := beRevenue scenario
  let breakEvenUnits :=
    if jsTruthy assumptions.pricePerUnit then
      breakEvenRevenue / (assumptions.pricePerUnit.getD 0)
    else breakEvenRevenue / 100
  let marginOfSafety :=
    ((firstYear.revenue - breakEvenRevenue) / firstYear.revenue) * 100
  let contributionMargin := firstYear.revenue - firstYear.cogs
  let operatingLeverage :=
    if 0 < firstYear.ebitda then contributionMargin / firstYear.ebitda else 0
  let monthlyRevenue := firstYear.revenue / 12
  let breakEvenMonth :=
    if 0 < monthlyRevenue then breakEvenRevenue / monthlyRevenue else 0
  let requiredGrowthRate :=
    if 0 < firstYear.revenue then
      ((breakEvenRevenue - firstYear.revenue) / firstYear.revenue) * 100
    else 100
  let strategy :=
    ["Target monthly revenue: " ++ toString (jround (breakEvenRevenue / 12)),
     "Optimize unit economics and reduce CAC",
     if runway.months < 6 then "URGENT: Secure emergency funding"
     else "Plan next funding round",
     "Focus on customer retention and upselling",
     "Monitor burn rate weekly"]
  { breakEvenRevenue := breakEvenRevenue
    breakEvenUnits := breakEvenUnits
    marginOfSafety := marginOfSafety
    operatingLeverage := operatingLeverage
    runway := runway
    burnRate := beMonthlyCosts scenario assumptions
    breakEvenMonth := breakEvenMonth
    monthsToBreakEven := (jround (beM2be scenario assumptions) : ℚ)
    requiredGrowthRate := jround1 requiredGrowthRate
    probability := (jround (beProbability scenario assumptions) : ℚ)
    strategy := strategy }

end FinVision

namespace FinVision

/-! ### Claim C4 -/

/-- Concrete scenario for the C4 counterexample: monthly revenue 10000
growing to 20000, opex 240000, no COGS, so break-even revenue is 240000 and
break-even is 12 months away. -/
def c4scenario : ScenarioData :=
  { name := "break-even probability example"
    description := ""
    assumptions := []
    projections :=
      [{ year := 1, revenue := 120000, cogs := 0, grossProfit := 120000,
         opex := 240000, ebitda := -120000, netIncome := -120000,
         cashBalance := 0 },
       { year := 2, revenue := 240000, cogs := 0, grossProfit := 240000,
         opex := 240000, ebitda := 0, netIncome := 0, cashBalance := 0 }] }

/-- Assumptions for the C4 counterexample: cash 150000 against a monthly
burn of 20000 and monthly revenue of 10000, i.e. a 15-month runway. -/
def c4assumptions : BreakEvenAssumptions :=
  { pricePerUnit := none, variableCostPerUnit := none,
    currentCash := some 150000, userInputs := none }

/-- C4 counterexample: at this input the company has not broken even,
break-even (12 months) precedes the runway (15 months, which is not an
18+-month runway), yet the returned probability is 80 — not the 60 the
claim's 18-month boundary predicts.  The code's boundary is 12 months. -/
theorem claim_C4_counterexample :
    (beFirstYear c4scenario).revenue < beRevenue c4scenario ∧
    (calculateBreakEven c4scenario c4assumptions).monthsToBreakEven = 12 ∧
    (calculateBreakEven c4scenario c4assumptions).runway.months = 15 ∧
    (calculateBreakEven c4scenario c4assumptions).runway.months < 18 ∧
    (calculateBreakEven c4scenario c4assumptions).probability = 80 ∧
    (calculateBreakEven c4scenario c4assumptions).probability ≠ 60 := by
  norm_num [calculateBreakEven, beFirstYear, beSecondYear, beCurrentCash,
    beMonthlyCosts, beRunway, beRevenue, beM2be, beProbability,
    calculateRunway, c4scenario, c4assumptions, orElseNum, jsTruthy, jround,
    jround1]

/-- C4 (amended): if year-1 revenue covers the break-even revenue then
`monthsToBreakEven = 0` and `probability = 100`; otherwise the bucket
boundary is a 12-month runway (not 18): probability is 100 in the degenerate
`monthsToBreakEven = 0` fallback, 80 when break-even precedes a runway
longer than 12 months, 60 when it precedes a shorter runway, 30 otherwise. -/
theorem claim_C4_amended (s : ScenarioData) (a : BreakEvenAssumptions)
    (_hrev : 0 < (beFirstYear s).revenue)
    (_hcogs : (beFirstYear s).cogs < (beFirstYear s).revenue) :
    (calculateBreakEven s a).breakEvenRevenue =
      (beFirstYear s).opex /
        (1 - (beFirstYear s).cogs / (beFirstYear s).revenue) ∧
    (beRevenue s ≤ (beFirstYear s).revenue →
      (calculateBreakEven s a).monthsToBreakEven = 0 ∧
      (calculateBreakEven s a).probability = 100) ∧
    (¬ beRevenue s ≤ (beFirstYear s).revenue →
      (beM2be s a = 0 → (calculateBreakEven s a).probability = 100) ∧
      (beM2be s a ≠ 0 → beM2be s a ≤ (beRunway s a).months →
        12 < (beRunway s a).months →
        (calculateBreakEven s a).probability = 80) ∧
      (beM2be s a ≠ 0 → beM2be s a ≤ (beRunway s a).months →
        ¬ 12 < (beRunway s a).months →
        (calculateBreakEven s a).probability = 60) ∧
      (beM2be s a ≠ 0 → ¬ beM2be s a ≤ (beRunway s a).months →
        (calculateBreakEven s a).probability = 30)) := by
  refine ⟨rfl, ?_, ?_⟩
  · intro h
    have hm : beM2be s a = 0 := by rw [beM2be, if_pos h]
    constructor
    · show (jround (beM2be s a) : ℚ) = 0
      rw [hm]
      norm_num [jround]
    · show (jround (beProbability s a) : ℚ) = 100
      rw [beProbability, if_pos hm]
      norm_num [jround]
  · intro _
    refine ⟨?_, ?_, ?_, ?_⟩
    · intro hm
      show (jround (beProbability s a) : ℚ) = 100
      rw [beProbability, if_pos hm]
      norm_num [jround]
    · intro hm hle hgt
      show (jround (beProbability s a) : ℚ) = 80
      rw [beProbability, if_neg hm, if_pos ⟨hle, hgt⟩]
      norm_num [jround]
    · intro hm hle hgt
      show (jround (beProbability s a) : ℚ) = 60
      rw [beProbability, if_neg hm, if_neg (fun hc => hgt hc.2), if_pos hle]
      norm_num [jround]
    · intro hm hle
      show (jround (beProbability s a) : ℚ) = 30
      rw [beProbability, if_neg hm, if_neg (fun hc => hle hc.1),
        if_neg hle]
      norm_num [jround]

/-- Witness for the amended C4 at the counterexample input. -/
theorem claim_C4_witness :
    (0 < (beFirstYear c4scenario).revenue ∧
      (beFirstYear c4scenario).cogs < (beFirstYear c4scenario).revenue) ∧
    ((calculateBreakEven c4scenario c4assumptions).breakEvenRevenue =
        (beFirstYear c4scenario).opex /
          (1 - (beFirstYear c4scenario).cogs /
            (beFirstYear c4scenario).revenue) ∧
      (beRevenue c4scenario ≤ (beFirstYear c4scenario).revenue →
        (calculateBreakEven c4scenario c4assumptions).monthsToBreakEven = 0 ∧
        (calculateBreakEven c4scenario c4assumptions).probability = 100) ∧
      (¬ beRevenue c4scenario ≤ (beFirstYear c4scenario).revenue →
        (beM2be c4scenario c4assumptions = 0 →
          (calculateBreakEven c4scenario c4assumptions).probability = 100) ∧
        (beM2be c4scenario c4assumptions ≠ 0 →
          beM2be c4scenario c4assumptions ≤
            (beRunway c4scenario c4assumptions).months →
          12 < (beRunway c4scenario c4assumptions).months →
          (calculateBreakEven c4scenario c4assumptions).probability = 80) ∧
        (beM2be c4scenario c4assumptions ≠ 0 →
          beM2be c4scenario c4assumptions ≤
            (beRunway c4scenario c4assumptions).months →
          ¬ 12 < (beRunway c4scenario c4assumptions).months →
          (calculateBreakEven c4scenario c4assumptions).probability = 60) ∧
        (beM2be c4scenario c4assumptions ≠ 0 →
          ¬ beM2be c4scenario c4assumptions ≤
            (beRunway c4scenario c4assumptions).months →
          (calculateBreakEven c4scenario c4assumptions).probability = 30))) :=
  ⟨⟨by norm_num [beFirstYear, c4scenario], by norm_num [beFirstYear, c4scenario]⟩,
   claim_C4_amended c4scenario c4assumptions
     (by norm_num [beFirstYear, c4scenario])
     (by norm_num [beFirstYear, c4scenario])⟩

end FinVision

namespace FinVision

/-! ### Valuation engine (src/unnamed/part_005, `calculateValuation`) -/

/-- The optional industry multiples argument. -/
structure IndustryMultiples where
  revenue : ℚ
  ebitda : ℚ
  pe : ℚ
  deriving Repr, DecidableEq, Inhabited

/-- The optional assumptions argument of `calculateValuation`. -/
structure ValuationAssumptions where
  wacc : Option ℚ
  terminalGrowthRate : Option ℚ
  sharesOutstanding : Option ℚ
  industryMultiples : Option IndustryMultiples
  deriving Repr, DecidableEq, Inhabited

/-- The `multipleValuation` sub-record of `ValuationMetrics`. -/
structure MultipleValuation where
  revenueMultiple : ℚ
  ebitdaMultiple : ℚ
  peRatio : ℚ
  deriving Repr, DecidableEq, Inhabited

/-- The record returned by `calculateValuation` (`ValuationMetrics`). -/
structure ValuationMetrics where
  dcfValuation : ℚ
  terminalValue : ℚ
  presentValue : ℚ
  wacc : ℚ
  enterpriseValue : ℚ
  equityValue : ℚ
  sharePrice : ℚ
  multipleValuation : MultipleValuation
  valuationMethod : String
  deriving Repr, DecidableEq, Inhabited

/-- One year's contribution to the discounted free-cash-flow sum: FCF from
EBITDA (or 10% of revenue when loss-making), clamped at 0, discounted at
`(1+wacc)^year`. -/
def fcfContribution (wacc : ℚ) (idx : ℕ) (proj : FinancialYear) : ℚ :=
  let year := idx + 1
  let discountFactor := (1 + wacc) ^ year
  let workingCapitalChange := max 0 (proj.revenue * (5/100))
  let fcf :=
    if 0 < proj.ebitda then
      proj.ebitda * (1 - 30/100) - proj.revenue * (3/100) -
        workingCapitalChange
    else proj.revenue * (1/10)
  max fcf 0 / discountFactor

/-- The `presentValue` accumulator of `calculateValuation`. -/
def dcfPresentValue (scenario : ScenarioData) (wacc : ℚ) : ℚ :=
  (scenario.projections.enum.map
    (fun p => fcfContribution wacc p.1 p.2)).sum

/-- The `discountedTerminalValue` local: Gordon-growth terminal value on the
final year's FCF (15% of revenue when loss-making), discounted over the
projection horizon. -/
def dcfTerminal (scenario : ScenarioData) (wacc tgr : ℚ) : ℚ :=
  let lastYear := scenario.projections.getLastD default
  let finalFCF :=
    if 0 < lastYear.ebitda then
      lastYear.ebitda * (1 - 30/100) - lastYear.revenue * (3/100) -
        lastYear.revenue * (5/100)
    else lastYear.revenue * (15/100)
  let terminalFCF := finalFCF * (1 + tgr)
  let terminalValue := terminalFCF / (wacc - tgr)
  terminalValue / (1 + wacc) ^ scenario.projections.length

/-- `calculateValuation`: DCF plus multiple-based valuations with the
early-stage gate `revenue₁ < 1,000,000 ∧ ebitda₁ < 0` selecting the
0.6×-haircut revenue multiple as the primary figure. -/
def calculateValuation (scenario : ScenarioData)
    (a : ValuationAssumptions) : ValuationMetrics :=
  let wacc := orElseNum a.wacc (15/100)
  let terminalGrowthRate := orElseNum a.terminalGrowthRate (25/1000)
  let sharesOutstanding := orElseNum a.sharesOutstanding 1000000
  let multiples := a.industryMultiples.getD ⟨4, 20, 25⟩
  let lastYear := scenario.projections.getLastD default
  let firstYear := scenario.projections.getD 0 default
  let isEarlyStage := firstYear.revenue < 1000000 ∧ firstYear.ebitda < 0
  let stageMultiplier : ℚ := if isEarlyStage then 6/10 else 1
  let presentValue := dcfPresentValue scenario wacc
  let discountedTerminalValue :=
    dcfTerminal scenario wacc terminalGrowthRate
  let adjustedRevenueMultiple := multiples.revenue * stageMultiplier
  let adjustedEbitdaMultiple := multiples.ebitda * stageMultiplier
  let enterpriseValue := presentValue + discountedTerminalValue
  let primaryValuation :=
    if isEarlyStage then lastYear.revenue * adjustedRevenueMultiple
    else enterpriseValue
  { dcfValuation := enterpriseValue
    terminalValue := discountedTerminalValue * stageMultiplier
    presentValue := presentValue * stageMultiplier
    wacc := wacc
    enterpriseValue := primaryValuation
    equityValue := primaryValuation
    sharePrice := primaryValuation / sharesOutstanding
    multipleValuation :=
      { revenueMultiple := lastYear.revenue * adjustedRevenueMultiple
        ebitdaMultiple :=
          if 0 < lastYear.ebitda then lastYear.ebitda * adjustedEbitdaMultiple
          else 0
        peRatio :=
          if 0 < lastYear.netIncome then
            lastYear.netIncome * multiples.pe * stageMultiplier
          else 0 }
    valuationMethod :=
      if isEarlyStage then "Revenue Multiple (Primary for early-stage)"
      else "DCF (Primary for profitable companies)" }

end FinVision

namespace FinVision

/-! ### Claim C3 -/

/-- C3: with the early-stage gate true (`revenue₁ < 1,000,000` and
`ebitda₁ < 0`) the returned `enterpriseValue` is year-3 revenue times the
industry revenue multiple haircut by 0.6, and the reported DCF components
(`presentValue`, `terminalValue`) carry the same 0.6 haircut; otherwise the
primary valuation is the DCF sum of discounted FCFs and discounted terminal
value. -/
theorem claim_C3 (s : ScenarioData) (a : ValuationAssumptions)
    (y1 y2 y3 : FinancialYear) (hs : s.projections = [y1, y2, y3]) :
    ((y1.revenue < 1000000 ∧ y1.ebitda < 0) →
      (calculateValuation s a).enterpriseValue =
        y3.revenue *
          ((a.industryMultiples.getD ⟨4, 20, 25⟩).revenue * (6/10)) ∧
      (calculateValuation s a).presentValue =
        dcfPresentValue s (orElseNum a.wacc (15/100)) * (6/10) ∧
      (calculateValuation s a).terminalValue =
        dcfTerminal s (orElseNum a.wacc (15/100))
          (orElseNum a.terminalGrowthRate (25/1000)) * (6/10)) ∧
    (¬ (y1.revenue < 1000000 ∧ y1.ebitda < 0) →
      (calculateValuation s a).enterpriseValue =
        dcfPresentValue s (orElseNum a.wacc (15/100)) +
          dcfTerminal s (orElseNum a.wacc (15/100))
            (orElseNum a.terminalGrowthRate (25/1000))) := by
  constructor
  · intro h
    refine ⟨?_, ?_, ?_⟩ <;> simp [calculateValuation, hs, h]
  · intro h
    simp [calculateValuation, hs, h]

/-- Year 1 of the C3 witness scenario (`revenue 500000, ebitda -50000`). -/
def c3y1 : FinancialYear :=
  ⟨1, 500000, 200000, 300000, 350000, -50000, -50000, 100000⟩

/-- Year 2 of the C3 witness scenario. -/
def c3y2 : FinancialYear :=
  ⟨2, 550000, 220000, 330000, 360000, -30000, -30000, 70000⟩

/-- Year 3 of the C3 witness scenario. -/
def c3y3 : FinancialYear :=
  ⟨3, 605000, 242000, 363000, 370000, -7000, -7000, 63000⟩

/-- The C3 witness scenario: an early-stage loss-making company. -/
def c3scenario : ScenarioData :=
  { name := "valuation early-stage example"
    description := ""
    assumptions := []
    projections := [c3y1, c3y2, c3y3] }

/-- Default (absent) valuation assumptions. -/
def c3assumptions : ValuationAssumptions := ⟨none, none, none, none⟩

/-- Witness for C3 at the early-stage example scenario. -/
theorem claim_C3_witness :
    (c3y1.revenue < 1000000 ∧ c3y1.ebitda < 0) ∧
    ((calculateValuation c3scenario c3assumptions).enterpriseValue =
      c3y3.revenue *
        ((c3assumptions.industryMultiples.getD ⟨4, 20, 25⟩).revenue *
          (6/10)) ∧
     (calculateValuation c3scenario c3assumptions).presentValue =
      dcfPresentValue c3scenario (orElseNum c3assumptions.wacc (15/100)) *
        (6/10) ∧
     (calculateValuation c3scenario c3assumptions).terminalValue =
      dcfTerminal c3scenario (orElseNum c3assumptions.wacc (15/100))
        (orElseNum c3assumptions.terminalGrowthRate (25/1000)) * (6/10)) :=
  ⟨⟨by norm_num [c3y1], by norm_num [c3y1]⟩,
   (claim_C3 c3scenario c3assumptions c3y1 c3y2 c3y3 rfl).1
     ⟨by norm_num [c3y1], by norm_num [c3y1]⟩⟩

end FinVision

namespace FinVision

/-! ### Sensitivity analyzer (src/services/sensitivityService.ts,
`performSensitivityAnalysis`) -/

/-- One variation row of a sensitivity test. -/
structure Variation where
  change : String
  value : ℚ
  impact : ℚ
  deriving Repr, DecidableEq, Inhabited

/-- One named parameter test (`SensitivityTest`). -/
structure SensitivityTest where
  parameter : String
  baseValue : ℚ
  variations : List Variation
  deriving Repr, DecidableEq, Inhabited

/-- `calculateRevenueImpact`: EBITDA impact of a growth-rate change, with
the raw growth change as the zero-EBITDA fallback. -/
def calculateRevenueImpact (baseRevenue baseEbitda growthChange : ℚ) : ℚ :=
  let revenueChange := baseRevenue * (growthChange / 100)
  let ebitdaChange := revenueChange * (6/10)
  if baseEbitda ≠ 0 then (ebitdaChange / |baseEbitda|) * 100 else growthChange

/-- `calculateCACImpact`: EBITDA impact of a CAC change, with the negated
raw percentage change as the zero-EBITDA fallback. -/
def calculateCACImpact (baseEbitda baseRevenue cacChange : ℚ) : ℚ :=
  let cacImpact := baseRevenue * (4/10) * cacChange
  if baseEbitda ≠ 0 then (-cacImpact / |baseEbitda|) * 100
  else -cacChange * 100

/-- `calculateMarginImpact`: EBITDA impact of a gross-margin change, with
the raw percentage change as the zero-EBITDA fallback. -/
def calculateMarginImpact (baseEbitda baseRevenue marginChange : ℚ) : ℚ :=
  let marginImpact := baseRevenue * marginChange
  if baseEbitda ≠ 0 then (marginImpact / |baseEbitda|) * 100
  else marginChange * 100

/-- `performSensitivityAnalysis`: the three fixed parameter tests with four
variations each. -/
def performSensitivityAnalysis (baseScenario : ScenarioData) :
    List SensitivityTest :=
  let baseProjection := baseScenario.projections.getD 0 default
  let baseRevenue := baseProjection.revenue
  let baseEbitda := baseProjection.ebitda
  let baseGrossProfit := baseProjection.grossProfit
  let baseOpex := baseProjection.opex
  [{ parameter := "Revenue Growth Rate"
     baseValue := 10
     variations :=
       [⟨"5% growth (vs 10% base)", 5,
          calculateRevenueImpact baseRevenue baseEbitda (-5)⟩,
        ⟨"8% growth (vs 10% base)", 8,
          calculateRevenueImpact baseRevenue baseEbitda (-2)⟩,
        ⟨"12% growth (vs 10% base)", 12,
          calculateRevenueImpact baseRevenue baseEbitda 2⟩,
        ⟨"15% growth (vs 10% base)", 15,
          calculateRevenueImpact baseRevenue baseEbitda 5⟩] },
   { parameter := "Customer Acquisition Cost"
     baseValue := (jround ((baseOpex * (4/10) / baseRevenue) * 100) : ℚ)
     variations :=
       [⟨"+10% CAC increase",
          (jround ((baseOpex * (44/100) / baseRevenue) * 100) : ℚ),
          calculateCACImpact baseEbitda baseRevenue (10/100)⟩,
        ⟨"+5% CAC increase",
          (jround ((baseOpex * (42/100) / baseRevenue) * 100) : ℚ),
          calculateCACImpact baseEbitda baseRevenue (5/100)⟩,
        ⟨"-5% CAC reduction",
          (jround ((baseOpex * (38/100) / baseRevenue) * 100) : ℚ),
          calculateCACImpact baseEbitda baseRevenue (-(5/100))⟩,
        ⟨"-10% CAC reduction",
          (jround ((baseOpex * (36/100) / baseRevenue) * 100) : ℚ),
          calculateCACImpact baseEbitda baseRevenue (-(10/100))⟩] },
   { parameter := "Gross Margin"
     baseValue := (jround ((baseGrossProfit / baseRevenue) * 100) : ℚ)
     variations :=
       [⟨"-3% margin compression",
          (jround ((baseGrossProfit / baseRevenue) * 100) : ℚ) - 3,
          calculateMarginImpact baseEbitda baseRevenue (-(3/100))⟩,
        ⟨"-1% margin compression",
          (jround ((baseGrossProfit / baseRevenue) * 100) : ℚ) - 1,
          calculateMarginImpact baseEbitda baseRevenue (-(1/100))⟩,
        ⟨"+1% margin expansion",
          (jround ((baseGrossProfit / baseRevenue) * 100) : ℚ) + 1,
          calculateMarginImpact baseEbitda baseRevenue (1/100)⟩,
        ⟨"+3% margin expansion",
          (jround ((baseGrossProfit / baseRevenue) * 100) : ℚ) + 3,
          calculateMarginImpact baseEbitda baseRevenue (3/100)⟩] }]

/-! ### Claim C9 -/

/-- C9: when the base year's EBITDA is exactly 0, every impact value across
the three tests' variations is the finite fallback — the raw percentage
change of the varied parameter (negated for CAC, whose impact direction is
opposite the cost change) — so no division by the zero EBITDA occurs and no
impact is NaN or Infinity. -/
theorem claim_C9 (s : ScenarioData)
    (h : (s.projections.getD 0 default).ebitda = 0) :
    ((performSensitivityAnalysis s).map
        (fun t => t.variations.map (fun v => v.impact))) =
      [[-5, -2, 2, 5], [-10, -5, 5, 10], [-3, -1, 1, 3]] := by
  have h' : ((s.projections)[0]?.getD default).ebitda = 0 := by simpa using h
  simp [performSensitivityAnalysis, calculateRevenueImpact,
    calculateCACImpact, calculateMarginImpact, h']

/-- A scenario whose base-year EBITDA is exactly zero. -/
def zeroEbitdaScenario : ScenarioData :=
  { name := "zero ebitda example"
    description := ""
    assumptions := []
    projections :=
      [{ year := 1, revenue := 600000, cogs := 240000, grossProfit := 360000,
         opex := 360000, ebitda := 0, netIncome := 0, cashBalance := 50000 }] }

/-- Witness for C9 at the zero-EBITDA scenario. -/
theorem claim_C9_witness :
    ((performSensitivityAnalysis zeroEbitdaScenario).map
        (fun t => t.variations.map (fun v => v.impact))) =
      [[-5, -2, 2, 5], [-10, -5, 5, 10], [-3, -1, 1, 3]] :=
  claim_C9 zeroEbitdaScenario (by norm_num [zeroEbitdaScenario])

end FinVision

namespace FinVision

/-! ### Funding planner (src/services/benchmarkService.ts,
`calculateFundingRequirements`) -/

/-- One per-year funding event (`fundingByYear` entries). -/
structure FundingEvent where
  year : ℕ
  amount : ℚ
  purpose : String
  deriving Repr, DecidableEq, Inhabited

/-- One recommended funding round. -/
structure FundingRound where
  round : String
  amount : ℚ
  timing : String
  valuation : ℚ
  dilution : ℚ
  deriving Repr, DecidableEq, Inhabited

/-- The record returned by `calculateFundingRequirements`. -/
structure FundingRequirements where
  totalFundingNeeded : ℚ
  fundingByYear : List FundingEvent
  dilution : ℚ
  roiProjection : ℚ
  paybackPeriod : ℕ
  irr : ℚ
  recommendedFundingRounds : List FundingRound
  deriving Repr, DecidableEq, Inhabited

/-- The optional assumptions argument of `calculateFundingRequirements`. -/
structure FundingAssumptions where
  currentValuation : Option ℚ
  targetOwnership : Option ℚ
  minimumCashBuffer : Option ℚ
  deriving Repr, DecidableEq, Inhabited

/-- State of the year-by-year funding walk (`runningCashBalance`,
`fundingByYear`, `totalFundingNeeded`). -/
structure FundingAcc where
  runningCashBalance : ℚ
  fundingByYear : List FundingEvent
  totalFundingNeeded : ℚ
  deriving Repr, DecidableEq, Inhabited

/-- One iteration of the `forEach` walk: roll the yearly net cash flow into
the running balance and book a funding event when it dips below the buffer. -/
def fundingStep (actualMonthlyBurn minimumCashBuffer : ℚ) (acc : FundingAcc)
    (entry : ℕ × FinancialYear) : FundingAcc :=
  let year := entry.1 + 1
  let monthlyRevenue := entry.2.revenue / 12
  let monthlyNetCashFlow := monthlyRevenue - actualMonthlyBurn
  let yearlyNetCashFlow := monthlyNetCashFlow * 12
  let running := acc.runningCashBalance + yearlyNetCashFlow
  if running < minimumCashBuffer then
    let monthsOfRunwayNeeded : ℚ := if year = 1 then 18 else 12
    let fundingNeeded :=
      actualMonthlyBurn * monthsOfRunwayNeeded - running + minimumCashBuffer
    if 0 < fundingNeeded then
      { runningCashBalance := running + fundingNeeded
        fundingByYear := acc.fundingByYear ++
          [⟨year, fundingNeeded,
            if year = 1 then "Seed funding for 18-month runway"
            else if year = 2 then "Series A for growth acceleration"
            else "Series B for scale"⟩]
        totalFundingNeeded := acc.totalFundingNeeded + fundingNeeded }
    else { acc with runningCashBalance := running }
  else { acc with runningCashBalance := running }

/-- The payback loop: first year index (1-based) at which the cumulative
cash flow turns non-negative, 0 when it never does. -/
def paybackScan (actualMonthlyBurn : ℚ) :
    List FinancialYear → ℚ → ℕ → ℕ
  | [], _, _ => 0
  | p :: rest, cum, idx =>
    let c := cum + (p.revenue / 12 - actualMonthlyBurn) * 12
    if 0 ≤ c then idx + 1 else paybackScan actualMonthlyBurn rest c (idx + 1)

/-- The `recommendedFundingRounds` construction: Seed (≤ 2M), Seed plus
Series A (≤ 8M), and nothing above the 8M tranche limit. -/
def fundingRounds (totalFundingNeeded currentValuation : ℚ) :
    List FundingRound :=
  if 0 < totalFundingNeeded then
    if totalFundingNeeded ≤ 2000000 then
      [⟨"Seed Round", totalFundingNeeded, "Year 1 Q1", currentValuation,
        (totalFundingNeeded / (currentValuation + totalFundingNeeded)) * 100⟩]
    else if totalFundingNeeded ≤ 8000000 then
      let seedAmount := min totalFundingNeeded 3000000
      let seedRound : FundingRound :=
        ⟨"Seed Round", seedAmount, "Year 1 Q1", currentValuation,
          (seedAmount / (currentValuation + seedAmount)) * 100⟩
      if seedAmount < totalFundingNeeded then
        [seedRound,
         ⟨"Series A", totalFundingNeeded - seedAmount, "Year 2 Q1",
           currentValuation * (25/10),
           ((totalFundingNeeded - seedAmount) /
             (currentValuation * (25/10) + (totalFundingNeeded - seedAmount)))
             * 100⟩]
      else [seedRound]
    else []
  else []

/-- `calculateFundingRequirements`.  `Math.pow(x, 1/3)` (a float cube root,
used only for the IRR approximation) has no exact rational counterpart and
is modelled as an explicit oracle argument `cbrt`; every claim proved below
holds for all oracles. -/
def calculateFundingRequirements (scenario : ScenarioData)
    (a : FundingAssumptions) (cbrt : ℚ → ℚ) : FundingRequirements :=
  let currentValuation := orElseNum a.currentValuation 2000000
  let minimumCashBuffer := orElseNum a.minimumCashBuffer 500000
  let realisticMonthlyBurn : ℚ := 260000
  let firstYear := scenario.projections.getD 0 default
  let actualMonthlyBurn :=
    max realisticMonthlyBurn ((firstYear.cogs + firstYear.opex) / 12)
  let acc := scenario.projections.enum.foldl
    (fundingStep actualMonthlyBurn minimumCashBuffer)
    ⟨firstYear.cashBalance, [], 0⟩
  let totalFundingNeeded := acc.totalFundingNeeded
  let finalCashBalance := (scenario.projections.getLastD default).cashBalance
  let roiProjection :=
    if 0 < totalFundingNeeded then
      ((finalCashBalance - totalFundingNeeded) / totalFundingNeeded) * 100
    else 0
  let paybackRaw :=
    paybackScan actualMonthlyBurn scenario.projections (-totalFundingNeeded) 0
  let paybackPeriod := if paybackRaw = 0 then 5 else paybackRaw
  let irr : ℚ :=
    if 0 < totalFundingNeeded ∧ totalFundingNeeded < finalCashBalance then
      max (-(9/10)) (min (cbrt (finalCashBalance / totalFundingNeeded) - 1) 2)
    else -(1/2)
  let recommendedFundingRounds := fundingRounds totalFundingNeeded
    currentValuation
  let totalDilution :=
    (recommendedFundingRounds.map (fun r => r.dilution)).sum
  { totalFundingNeeded := totalFundingNeeded
    fundingByYear := acc.fundingByYear
    dilution := totalDilution
    roiProjection := roiProjection
    paybackPeriod := paybackPeriod
    irr := irr * 100
    recommendedFundingRounds := recommendedFundingRounds }

/-! ### Claim C10 -/

lemma fundingRounds_of_gt (t v : ℚ) (h : 8000000 < t) :
    fundingRounds t v = [] := by
  have h0 : 0 < t := by linarith
  have h2 : ¬ t ≤ 2000000 := by linarith
  have h8 : ¬ t ≤ 8000000 := by linarith
  simp [fundingRounds, h0, h2, h8]

lemma cfr_rounds (s : ScenarioData) (a : FundingAssumptions) (cbrt : ℚ → ℚ) :
    (calculateFundingRequirements s a cbrt).recommendedFundingRounds =
      fundingRounds (calculateFundingRequirements s a cbrt).totalFundingNeeded
        (orElseNum a.currentValuation 2000000) := rfl

lemma cfr_dilution (s : ScenarioData) (a : FundingAssumptions) (cbrt : ℚ → ℚ) :
    (calculateFundingRequirements s a cbrt).dilution =
      (((calculateFundingRequirements s a cbrt).recommendedFundingRounds).map
        (fun r => r.dilution)).sum := rfl

/-- C10: whenever the computed `totalFundingNeeded` exceeds 8,000,000, the
returned `recommendedFundingRounds` list is empty and the total dilution is
0, even though `totalFundingNeeded` is positive. -/
theorem claim_C10 (s : ScenarioData) (a : FundingAssumptions) (cbrt : ℚ → ℚ)
    (h : 8000000 <
      (calculateFundingRequirements s a cbrt).totalFundingNeeded) :
    (calculateFundingRequirements s a cbrt).recommendedFundingRounds = [] ∧
    (calculateFundingRequirements s a cbrt).dilution = 0 ∧
    0 < (calculateFundingRequirements s a cbrt).totalFundingNeeded := by
  refine ⟨?_, ?_, by linarith⟩
  · rw [cfr_rounds, fundingRounds_of_gt _ _ h]
  · rw [cfr_dilution, cfr_rounds, fundingRounds_of_gt _ _ h]
    simp

end FinVision

namespace FinVision

/-- A scenario whose year-1 burn forces a funding need far above the 8M
tranche limit (total need 480,500,000). -/
def c10scenario : ScenarioData :=
  { name := "heavy burn example"
    description := ""
    assumptions := []
    projections :=
      [{ year := 1, revenue := 0, cogs := 0, grossProfit := 0,
         opex := 120000000, ebitda := -120000000, netIncome := -120000000,
         cashBalance := 0 },
       { year := 2, revenue := 0, cogs := 0, grossProfit := 0, opex := 0,
         ebitda := 0, netIncome := 0, cashBalance := 0 },
       { year := 3, revenue := 0, cogs := 0, grossProfit := 0, opex := 0,
         ebitda := 0, netIncome := 0, cashBalance := 0 }] }

/-- Default (absent) funding assumptions. -/
def c10assumptions : FundingAssumptions := ⟨none, none, none⟩

/-- Witness for C10 at the heavy-burn scenario (need 480.5M > 8M). -/
theorem claim_C10_witness :
    8000000 < (calculateFundingRequirements c10scenario c10assumptions
        (fun _ => 0)).totalFundingNeeded ∧
      ((calculateFundingRequirements c10scenario c10assumptions
          (fun _ => 0)).recommendedFundingRounds = [] ∧
       (calculateFundingRequirements c10scenario c10assumptions
          (fun _ => 0)).dilution = 0 ∧
       0 < (calculateFundingRequirements c10scenario c10assumptions
          (fun _ => 0)).totalFundingNeeded) :=
  ⟨by norm_num [calculateFundingRequirements, c10scenario, c10assumptions,
      orElseNum, fundingStep, List.enum, List.enumFrom],
   claim_C10 c10scenario c10assumptions (fun _ => 0)
     (by norm_num [calculateFundingRequirements, c10scenario, c10assumptions,
       orElseNum, fundingStep, List.enum, List.enumFrom])⟩

end FinVision

namespace FinVision

/-! ### Scenario-type detection by name substring
(src/unnamed/part_003 `validateFinancialModel` lines 21-24; the budget
allocator src/services/budgetService.ts lines 33-35 applies the same
optimistic/pessimistic tests) -/

/-- The characters of a string lowercased (JS `toLowerCase()`). -/
def lowerChars (s : String) : List Char := s.data.map Char.toLower

/-- Substring containment on character lists (JS `String.includes`). -/
def charListHasSub (sub : List Char) : List Char → Bool
  | [] => sub.isEmpty
  | c :: rest => sub.isPrefixOf (c :: rest) || charListHasSub sub rest

/-- JS `s.toLowerCase().includes(sub)` (`sub` already lower-case). -/
def jsIncludesLower (s sub : String) : Bool :=
  charListHasSub (lowerChars sub) (lowerChars s)

/-- Validator test `isOptimistic`: name contains "optimistic" or
"aggressive". -/
def isOptimisticName (name : String) : Bool :=
  jsIncludesLower name "optimistic" || jsIncludesLower name "aggressive"

/-- Validator test `isPessimistic`: name contains "pessimistic" or
"downturn". -/
def isPessimisticName (name : String) : Bool :=
  jsIncludesLower name "pessimistic" || jsIncludesLower name "downturn"

/-- Validator test `isBase`: name contains "base" or "conservative". -/
def isBaseName (name : String) : Bool :=
  jsIncludesLower name "base" || jsIncludesLower name "conservative"

/-! ### Claim C8 -/

lemma lowerChars_append (a b : String) :
    lowerChars (a ++ b) = lowerChars a ++ lowerChars b := by
  simp [lowerChars, String.data_append]

lemma charListHasSub_append (sub s t : List Char)
    (h : charListHasSub sub t = true) :
    charListHasSub sub (s ++ t) = true := by
  induction s with
  | nil => simpa using h
  | cons c cs ih =>
    simp only [List.cons_append, charListHasSub, Bool.or_eq_true]
    exact Or.inr ih

/-- C8 counterexample: for the concrete inputs `u0` the scenario produced in
the optimistic slot is named "Growth Scenario", which does not contain
"optimistic" (case-insensitively), so the validator's and the budget
allocator's substring detection does not classify it as optimistic. -/
theorem claim_C8_counterexample :
    ((generateScenariosFromInputs u0).getD 1 default).name =
      "Growth Scenario" ∧
    jsIncludesLower ((generateScenariosFromInputs u0).getD 1 default).name
      "optimistic" = false ∧
    isOptimisticName ((generateScenariosFromInputs u0).getD 1 default).name
      = false := by
  refine ⟨rfl, ?_, ?_⟩ <;> decide

/-- C8 (amended): the generator's names are "Business Plan" (base slot),
"Growth Scenario" (optimistic slot) and "Conservative Scenario"
(pessimistic slot), each with the company name as a leading prefix when one
is given; none contains its policy keyword.  The pessimistic scenario's
name always matches the validator's "conservative" test and is therefore
classified as a base-type scenario, while (for an empty company name) the
base and optimistic scenarios match no keyword at all. -/
theorem claim_C8_amended (u : UserInputs) :
    isBaseName ((generateScenariosFromInputs u).getD 2 default).name
      = true ∧
    (u.companyName = "" →
      ((generateScenariosFromInputs u).getD 0 default).name =
        "Your Business Plan" ∧
      ((generateScenariosFromInputs u).getD 1 default).name =
        "Growth Scenario" ∧
      ((generateScenariosFromInputs u).getD 2 default).name =
        "Conservative Scenario" ∧
      isBaseName "Your Business Plan" = false ∧
      isOptimisticName "Growth Scenario" = false ∧
      isPessimisticName "Conservative Scenario" = false ∧
      isBaseName "Conservative Scenario" = true) := by
  constructor
  · show isBaseName (pessimisticScenario u).name = true
    have hname : (pessimisticScenario u).name =
        scenarioName u.companyName " - Conservative Scenario"
          "Conservative Scenario" := rfl
    rw [hname, scenarioName]
    by_cases hc : u.companyName = ""
    · rw [if_pos hc]
      decide
    · rw [if_neg hc, isBaseName, Bool.or_eq_true]
      right
      rw [jsIncludesLower, lowerChars_append]
      exact charListHasSub_append _ _ _ (by decide)
  · intro hc
    refine ⟨?_, ?_, ?_, by decide, by decide, by decide, by decide⟩
    · show scenarioName u.companyName " - Business Plan"
        "Your Business Plan" = "Your Business Plan"
      rw [scenarioName, if_pos hc]
    · show scenarioName u.companyName " - Growth Scenario"
        "Growth Scenario" = "Growth Scenario"
      rw [scenarioName, if_pos hc]
    · show scenarioName u.companyName " - Conservative Scenario"
        "Conservative Scenario" = "Conservative Scenario"
      rw [scenarioName, if_pos hc]

/-- Witness for the amended C8 at the concrete inputs `u0`. -/
theorem claim_C8_witness :
    isBaseName ((generateScenariosFromInputs u0).getD 2 default).name
      = true ∧
    (((generateScenariosFromInputs u0).getD 0 default).name =
        "Your Business Plan" ∧
      ((generateScenariosFromInputs u0).getD 1 default).name =
        "Growth Scenario" ∧
      ((generateScenariosFromInputs u0).getD 2 default).name =
        "Conservative Scenario" ∧
      isBaseName "Your Business Plan" = false ∧
      isOptimisticName "Growth Scenario" = false ∧
      isPessimisticName "Conservative Scenario" = false ∧
      isBaseName "Conservative Scenario" = true) :=
  ⟨(claim_C8_amended u0).1, (claim_C8_amended u0).2 rfl⟩

end FinVision
